import Mathlib

/-!
Verification of the single-worker priority executor in src/common/executor.h
(class caspar::executor).

The development has three layers, all translated from the source:

1. A task layer modelling boost::packaged_task together with the
   task_already_started guard and the wait callback installed by
   internal_begin_invoke (lines 217-257 of executor.h).

2. A channel/worker-loop layer: the execution queue is a
   blocking_bounded_queue_adapter over tbb::concurrent_priority_queue of
   priority_function values, ordered by priority_function::operator<
   (lines 76-79).  tbb::concurrent_priority_queue pops a maximal element
   and gives no ordering guarantee among equal priorities, so the worker
   loop (executor::run, lines 277-293) is modelled as a labelled
   transition relation whose pop step removes an arbitrary maximal
   element of the queue.

3. A functional layer for the submission API: internal_begin_invoke,
   try_begin_invoke, begin_invoke, invoke and yield (lines 118-154 and
   207-275), including the exception payloads they raise.
-/

namespace Caspar

/-- Priority levels of task_priority_def in executor.h:
lowest_priority = 0 up to higher_priority = 5. -/
inductive TaskPriority where
  | lowest_priority
  | lower_priority
  | low_priority
  | normal_priority
  | high_priority
  | higher_priority
  deriving DecidableEq

/-- Numeric value of a priority level, as assigned by the C++ enum
(task_priority_def::type, lines 41-49). -/
def TaskPriority.value : TaskPriority → Nat
  | .lowest_priority => 0
  | .lower_priority => 1
  | .low_priority => 2
  | .normal_priority => 3
  | .high_priority => 4
  | .higher_priority => 5

/-- Effect of a queued task body on the executor state, as needed by the
worker-loop model: a task either leaves the is_running_ flag alone or
clears it (the body of the destructor and of executor::stop is the
lambda that assigns is_running_ = false). -/
inductive TaskAct where
  | pure
  | stop
  deriving DecidableEq

/-- Result of running a task body on the running flag: a stop task
clears the flag, a pure task leaves it unchanged. -/
def TaskAct.apply : TaskAct → Bool → Bool
  | .pure, r => r
  | .stop, _ => false

/-- Abstraction of struct priority_function (executor.h lines 55-80):
an integer priority together with the wrapped callable.  The id field
distinguishes distinct submissions that happen to carry the same
priority and effect; it has no counterpart in the C++ struct, where
distinct submissions are distinct heap objects. -/
structure PriorityFunction where
  id : Nat
  priority : Nat
  act : TaskAct
  deriving DecidableEq

/-- State of the executor as seen by the worker loop: the is_running_
flag (tbb::atomic of bool, line 88) and the multiset of queued
priority_function values, represented as a list. -/
structure ExecState where
  is_running : Bool
  queue : List PriorityFunction
  deriving DecidableEq

/-- Observable events of the channel: the worker (or yield) popping a
task, and a submission pushing one. -/
inductive Label where
  | pops (f : PriorityFunction)
  | pushes (f : PriorityFunction)
  deriving DecidableEq

/-- Labelled transition relation of the executor.

The worker step is one iteration of executor::run (lines 280-292): it
requires is_running_ to be true, removes a task from the queue and runs
it.  Because tbb::concurrent_priority_queue with
priority_function::operator< delivers an element of maximal priority
and specifies nothing about ties, the popped task is an arbitrary
maximal element of the queue.  The submit step is a push into the
execution queue from any thread; it is left unguarded so that every
interleaving of racing submitters is covered. -/
inductive LStep : ExecState → Label → ExecState → Prop where
  | worker {s : ExecState} {f : PriorityFunction}
      (hrun : s.is_running = true) (hmem : f ∈ s.queue)
      (hmax : ∀ g ∈ s.queue, g.priority ≤ f.priority) :
      LStep s (Label.pops f)
        { is_running := TaskAct.apply f.act s.is_running, queue := s.queue.erase f }
  | submit {s : ExecState} (f : PriorityFunction) :
      LStep s (Label.pushes f) { is_running := s.is_running, queue := f :: s.queue }

/-- Finite executions of the transition relation, recording the list of
labels. -/
inductive Reaches : ExecState → List Label → ExecState → Prop where
  | refl (s : ExecState) : Reaches s [] s
  | step {s s1 s2 : ExecState} {lbl : Label} {tr : List Label}
      (h : LStep s lbl s1) (htr : Reaches s1 tr s2) : Reaches s (lbl :: tr) s2

/-- Tasks popped along a trace, in order. -/
def poppedTasks : List Label → List PriorityFunction
  | [] => []
  | Label.pops f :: tr => f :: poppedTasks tr
  | Label.pushes _ :: tr => poppedTasks tr

/-- Some queued task clears the running flag and has at least normal
priority.  This is the shape of the queue right after the destructor
(executor.h lines 101-116) has enqueued its shutdown lambda. -/
def stopQueued (s : ExecState) : Prop :=
  ∃ x, x ∈ s.queue ∧ x.act = TaskAct.stop ∧
    TaskPriority.normal_priority.value ≤ x.priority

/-- The shutdown task enqueued by the destructor: ~executor calls
internal_begin_invoke with the lambda that clears is_running_ and with
try_begin = false, leaving the priority argument at its default
task_priority::normal_priority (lines 105-108 and 211). -/
def shutdown_task (i : Nat) : PriorityFunction :=
  { id := i, priority := TaskPriority.normal_priority.value, act := TaskAct.stop }

/-- Default capacity of the execution queue, from the constructor
execution_queue_(512) at line 95. -/
def default_capacity : Nat := 512

/-- State of one boost::packaged_task: pending with its stored function,
or done with the captured result.  Task bodies are modelled as functions
into Except String so that a raised error is a first-class value
captured by the task. -/
inductive TaskSt (α : Type) where
  | pending (act : Unit → Except String α)
  | done (r : Except String α)

/-- Exception thrown by boost::packaged_task::operator() on a second
invocation. -/
inductive TaskError where
  | task_already_started
  deriving DecidableEq

/-- boost::packaged_task::operator(): the first call runs the stored
function and stores its result (value or raised error) in the shared
state; any further call throws boost::task_already_started. -/
def TaskSt.call {α : Type} : TaskSt α → TaskSt α × Option TaskError
  | .pending act => (.done (act ()), none)
  | .done r => (.done r, some TaskError.task_already_started)

/-- The guard wrapped around every task invocation in
internal_begin_invoke: both the queued lambda (lines 249-257) and the
wait callback (lines 236-244) call the packaged task inside a try block
whose only handler catches boost::task_already_started and does
nothing, so a second invocation is a silent no-op. -/
def guardedCall {α : Type} (s : TaskSt α) : TaskSt α × Option TaskError :=
  match TaskSt.call s with
  | (s1, some TaskError.task_already_started) => (s1, none)
  | (s1, none) => (s1, none)

/-- Whether the packaged task has not been started yet. -/
def TaskSt.isPending {α : Type} : TaskSt α → Bool
  | .pending _ => true
  | .done _ => false

/-- Iterated guarded invocation attempts on one task (any interleaving
of the worker-loop call and wait-callback calls is such a sequence);
returns the final task state and the number of times the stored action
actually ran. -/
def attempts {α : Type} (s : TaskSt α) : Nat → TaskSt α × Nat
  | 0 => (s, 0)
  | n + 1 =>
      ((guardedCall (attempts s n).1).1,
        (attempts s n).2 + (if TaskSt.isPending (attempts s n).1 then 1 else 0))

/-- boost::unique_future::get with the wait callback installed by
internal_begin_invoke (lines 236-244): before blocking, the callback
runs; if the caller is on the executor thread (is_current()) it invokes
the task inline, swallowing task_already_started.  The first component
is the retrieved result: some r once the shared state is resolved, none
when the caller must keep blocking until another thread resolves it. -/
def wait_and_get {α : Type} (is_current : Bool) (s : TaskSt α) :
    Option (Except String α) × TaskSt α :=
  match (if is_current then (guardedCall s).1 else s) with
  | TaskSt.done r => (some r, TaskSt.done r)
  | TaskSt.pending a => (none, TaskSt.pending a)

/-- A submitted task as the worker loop sees it: an identifier for its
completion handle and the stored action. -/
structure VTask where
  id : Nat
  act : Unit → Except String Nat

/-- One iteration of executor::run for one queued task: the queued
lambda calls the packaged task, which captures the action result into
the task's own shared state; the loop's catch-all (lines 288-291) never
sees an error from the body because the packaged task has already
captured it. -/
def runOne (t : VTask) : Nat × TaskSt Nat :=
  (t.id, (guardedCall (TaskSt.pending t.act)).1)

/-- The worker loop draining a queue of tasks in pop order: each task is
run in its own iteration, and the loop continues regardless of the
result captured for the previous task. -/
def runAll : List VTask → List (Nat × TaskSt Nat)
  | [] => []
  | t :: rest => runOne t :: runAll rest

/-- Message attached by both not-running throws
(executor.h lines 122 and 132). -/
def not_running_msg : String := "executor not running."

/-- Message attached by the yield throw (line 149). -/
def yield_msg : String := "Executor can only yield inside of thread context."

/-- Concrete executor name used for the concrete evaluations below;
the constructor takes an arbitrary diagnostic name. -/
def channel_name : String := "channel-1"

/-- Modelled from the spec: the structured error payload of the
error-reporting collaborator (except.h is not under src/).  The spec
describes errors carrying a human-readable message and the executor
name; msg_info attaches the message and source_info attaches the
executor name, each field staying empty when the corresponding tag is
not streamed into the exception. -/
structure ExceptionInfo where
  msg : Option String
  source : Option String
  deriving DecidableEq

/-- The bounded execution queue: blocking_bounded_queue_adapter around
the priority queue, with its capacity and current items. -/
structure Channel where
  capacity : Nat
  items : List PriorityFunction
  deriving DecidableEq

/-- Modelled from the spec: blocking_bounded_queue_adapter::try_push
(header not under src/); spec section 4.1: inserts and returns true if
capacity allows immediately, otherwise returns false without blocking
and without inserting. -/
def Channel.try_push (c : Channel) (f : PriorityFunction) : Bool × Channel :=
  if c.items.length < c.capacity then
    (true, { capacity := c.capacity, items := f :: c.items })
  else
    (false, c)

/-- Modelled from the spec: blocking_bounded_queue_adapter::push (header
not under src/); spec section 4.1: blocks the caller until capacity is
available, then inserts.  The post-state records the inserted element;
the fact that the caller blocked is recorded by the submission outcome
below. -/
def Channel.push_blocking (c : Channel) (f : PriorityFunction) : Channel :=
  { capacity := c.capacity, items := f :: c.items }

/-- Deterministic pop of tbb::concurrent_priority_queue under
priority_function::operator< (lines 76-79): removes and returns an
element of maximal priority.  Among equal priorities the underlying
container guarantees nothing; this executable model returns the first
maximal element. -/
def popMax : List PriorityFunction → Option (PriorityFunction × List PriorityFunction)
  | [] => none
  | f :: rest =>
    match popMax rest with
    | none => some (f, [])
    | some (g, rest1) =>
      if f.priority < g.priority then some (g, f :: rest1) else some (f, rest)

/-- Non-blocking pop of the execution queue (try_pop). -/
def Channel.try_pop (c : Channel) : Option (PriorityFunction × Channel) :=
  match popMax c.items with
  | none => none
  | some (f, rest) => some (f, { capacity := c.capacity, items := rest })

/-- Observable outcome of internal_begin_invoke (lines 207-275) past the
not-running check: the resulting queue, whether the returned future is
initialized (an uninitialized boost::unique_future is the permanently
invalid handle), whether the overflow debug line was logged, whether the
caller was blocked by the bounded queue, and whether the task ended up
inserted. -/
structure SubmitOutcome where
  channel : Channel
  handleValid : Bool
  loggedOverflow : Bool
  blockedCaller : Bool
  taskInserted : Bool
  deriving DecidableEq

/-- internal_begin_invoke, lines 259-274: first a try_push; on failure,
a try_begin submission deletes the task and returns an uninitialized
future, while a normal submission logs the overflow debug message and
falls back to the blocking push before returning the valid future. -/
def internal_begin_invoke (c : Channel) (try_begin : Bool) (f : PriorityFunction) :
    SubmitOutcome :=
  match c.try_push f with
  | (true, c1) =>
    { channel := c1, handleValid := true, loggedOverflow := false,
      blockedCaller := false, taskInserted := true }
  | (false, _) =>
    if try_begin then
      { channel := c, handleValid := false, loggedOverflow := false,
        blockedCaller := false, taskInserted := false }
    else
      { channel := c.push_blocking f, handleValid := true, loggedOverflow := true,
        blockedCaller := true, taskInserted := true }

/-- executor::try_begin_invoke, lines 118-126: when is_running_ is
false it throws invalid_operation via BOOST_THROW_EXCEPTION with only
msg_info attached (no source_info), otherwise it submits with
try_begin = true. -/
def try_begin_invoke (name : String) (running : Bool) (c : Channel)
    (f : PriorityFunction) : Except ExceptionInfo SubmitOutcome :=
  if running then Except.ok (internal_begin_invoke c true f)
  else Except.error { msg := some not_running_msg, source := none }

/-- executor::begin_invoke, lines 128-135: when is_running_ is false it
throws invalid_operation via CASPAR_THROW_EXCEPTION with msg_info and
source_info(name_) attached, otherwise it submits with
try_begin = false. -/
def begin_invoke (name : String) (running : Bool) (c : Channel)
    (f : PriorityFunction) : Except ExceptionInfo SubmitOutcome :=
  if running then Except.ok (internal_begin_invoke c false f)
  else Except.error { msg := some not_running_msg, source := some name }

/-- How executor::invoke returned: the is_current() fast path runs the
function in place with no enqueue, otherwise the call is
begin_invoke(...).get() and the caller blocks on the returned handle. -/
inductive InvokeResult (α : Type) where
  | inline (r : α)
  | submitted (o : SubmitOutcome)

/-- executor::invoke, lines 137-144: if the caller is already on the
worker thread the function is run synchronously in place, before any
check of the running flag; otherwise the call forwards to begin_invoke
and blocks on the future. -/
def invoke {α : Type} (name : String) (running is_current : Bool) (c : Channel)
    (f : PriorityFunction) (func : Unit → α) :
    Except ExceptionInfo (InvokeResult α) :=
  if is_current then Except.ok (InvokeResult.inline (func ()))
  else Except.map InvokeResult.submitted (begin_invoke name running c f)

/-- executor::yield, lines 146-154: off the worker thread it throws
invalid_operation with msg_info and source_info(name_); on the worker
thread it try_pops at most one queued task and runs it. -/
def yield (name : String) (is_current : Bool) (c : Channel) :
    Except ExceptionInfo (Option PriorityFunction × Channel) :=
  if is_current then
    match c.try_pop with
    | some (f, c1) => Except.ok (some f, c1)
    | none => Except.ok (none, c)
  else Except.error { msg := some yield_msg, source := some name }

/-- Unfolding equation for iterated attempts. -/
theorem attempts_succ {α : Type} (s : TaskSt α) (n : Nat) :
    attempts s (n + 1) =
      ((guardedCall (attempts s n).1).1,
        (attempts s n).2 + (if TaskSt.isPending (attempts s n).1 then 1 else 0)) := rfl

/-- Any positive number of guarded invocation attempts on a pending task
runs the stored action exactly once and leaves the task resolved with
the action result. -/
theorem attempts_pending_eq {α : Type} (act : Unit → Except String α) (n : Nat) :
    attempts (TaskSt.pending act) (n + 1) = (TaskSt.done (act ()), 1) := by
  induction n with
  | zero => rfl
  | succ k ih =>
    rw [attempts_succ, ih]
    rfl

/-- Claim C2: at-most-once execution.  Across any positive number of
guarded invocation attempts on one submitted task (the worker-loop
dequeue path and the inline wait-callback path are both such attempts),
the stored action runs exactly once and the task ends resolved with the
action result; a further attempt on an already-executed task is a
silent no-op that changes nothing and surfaces no error. -/
theorem task_runs_exactly_once {α : Type} (act : Unit → Except String α)
    (n : Nat) (r : Except String α) :
    (attempts (TaskSt.pending act) (n + 1)).2 = 1
    ∧ (attempts (TaskSt.pending act) (n + 1)).1 = TaskSt.done (act ())
    ∧ guardedCall (TaskSt.done r) = (TaskSt.done r, none) := by
  rw [attempts_pending_eq]
  exact ⟨rfl, rfl, rfl⟩

/-- Claim C3: re-entrant wait.  A wait on the executor thread executes a
still-pending task inline and returns its result; on an
already-resolved task the inline run is suppressed and the wait
observes the resolved value; a wait off the executor thread keeps
blocking on a pending task (no result is produced) and observes the
resolved value once the worker has resolved it. -/
theorem wait_reentrant_inline {α : Type} (act : Unit → Except String α)
    (r : Except String α) :
    wait_and_get true (TaskSt.pending act) = (some (act ()), TaskSt.done (act ()))
    ∧ wait_and_get true (TaskSt.done r) = (some r, TaskSt.done r)
    ∧ wait_and_get false (TaskSt.pending act) = (none, TaskSt.pending act)
    ∧ wait_and_get false (TaskSt.done r) = (some r, TaskSt.done r) :=
  ⟨rfl, rfl, rfl, rfl⟩

/-- The worker loop resolves each drained task with exactly its own
action result. -/
theorem runAll_append (pre post : List VTask) (t : VTask) :
    runAll (pre ++ t :: post)
      = runAll pre ++ (t.id, TaskSt.done (t.act ())) :: runAll post := by
  induction pre with
  | nil => rfl
  | cons u pre ih => simp [runAll, ih]

/-- The worker loop runs one iteration per drained task; no task result
shortens the loop. -/
theorem runAll_length (q : List VTask) : (runAll q).length = q.length := by
  induction q with
  | nil => rfl
  | cons t q ih => simp [runAll, ih]

/-- Claim C7: error propagation.  Draining a queue that contains task t
resolves t's own handle with exactly t's action result (so a raised
error is captured with its kind preserved), leaves every other task's
result untouched, never shortens the worker loop, and the captured
error is re-raised, unchanged, to the caller that retrieves the
result. -/
theorem task_error_isolated (pre post : List VTask) (t : VTask) (e : String) :
    runAll (pre ++ t :: post)
        = runAll pre ++ (t.id, TaskSt.done (t.act ())) :: runAll post
    ∧ (runAll (pre ++ t :: post)).length = pre.length + 1 + post.length
    ∧ wait_and_get false (TaskSt.done (Except.error e : Except String Nat))
        = (some (Except.error e), TaskSt.done (Except.error e)) := by
  refine ⟨runAll_append pre post t, ?_, rfl⟩
  rw [runAll_length]
  simp only [List.length_append, List.length_cons]
  omega

/-- Recast of the worker step with an explicit equation for the target
state, convenient for concrete executions. -/
theorem LStep.worker_eq {s t : ExecState} {f : PriorityFunction}
    (hrun : s.is_running = true) (hmem : f ∈ s.queue)
    (hmax : ∀ g ∈ s.queue, g.priority ≤ f.priority)
    (ht : t = { is_running := TaskAct.apply f.act s.is_running,
                queue := s.queue.erase f }) :
    LStep s (Label.pops f) t := by
  subst ht
  exact LStep.worker hrun hmem hmax

/-- Along a trace with no submissions, every popped task was already in
the initial queue. -/
theorem popped_mem_init {s : ExecState} {tr : List Label} {sf : ExecState}
    (h : Reaches s tr sf) :
    (∀ f, Label.pushes f ∉ tr) → ∀ g ∈ poppedTasks tr, g ∈ s.queue := by
  induction h with
  | refl s0 =>
    intro _ g hg
    exact absurd hg (List.not_mem_nil g)
  | step hst htr ih =>
    intro hnp g hg
    cases hst with
    | submit f => exact absurd (List.mem_cons_self _ _) (hnp f)
    | @worker f hrun hmem hmax =>
      simp only [poppedTasks] at hg
      rcases List.mem_cons.mp hg with h1 | h2
      · exact h1 ▸ hmem
      · exact List.mem_of_mem_erase
          (ih (fun f2 hf2 => hnp f2 (List.mem_cons_of_mem _ hf2)) g h2)

/-- Along a trace with no submissions, the popped priorities are
non-increasing: each popped task was maximal among everything still
queued, which includes all later pops. -/
theorem popped_pairwise {s : ExecState} {tr : List Label} {sf : ExecState}
    (h : Reaches s tr sf) :
    (∀ f, Label.pushes f ∉ tr) →
    (poppedTasks tr).Pairwise (fun a b => b.priority ≤ a.priority) := by
  induction h with
  | refl s0 =>
    intro _
    exact List.Pairwise.nil
  | step hst htr ih =>
    intro hnp
    cases hst with
    | submit f => exact absurd (List.mem_cons_self _ _) (hnp f)
    | @worker f hrun hmem hmax =>
      simp only [poppedTasks]
      refine List.Pairwise.cons ?_ (ih (fun f2 hf2 => hnp f2 (List.mem_cons_of_mem _ hf2)))
      intro g hg
      exact hmax g (List.mem_of_mem_erase
        (popped_mem_init htr (fun f2 hf2 => hnp f2 (List.mem_cons_of_mem _ hf2)) g hg))

/-- Claim C1: priority ordering.  For any sequence of tasks sitting in
the channel, the worker dequeues them in non-increasing priority order
(the pop sequence of any submission-free execution is pairwise
non-increasing), and a task is never popped while a task of strictly
higher priority is queued: every pop step removes a task whose priority
is at least that of everything still queued.  Equal-priority tasks may
be popped in any relative order, which the pop relation leaves
unconstrained. -/
theorem priority_dequeue_nonincreasing (s0 sf : ExecState) (tr : List Label)
    (hr : Reaches s0 tr sf) (hnp : ∀ f, Label.pushes f ∉ tr) :
    (poppedTasks tr).Pairwise (fun a b => b.priority ≤ a.priority)
    ∧ ∀ (s t : ExecState) (f : PriorityFunction),
        LStep s (Label.pops f) t → ∀ g ∈ s.queue, g.priority ≤ f.priority := by
  refine ⟨popped_pairwise hr hnp, ?_⟩
  intro s t f hst g hg
  cases hst with
  | worker hrun hmem hmax => exact hmax g hg

/-- Once the running flag is false, the worker loop pops nothing more:
any further trace contains no pop labels. -/
theorem no_pops_when_stopped {s : ExecState} {tr : List Label} {sf : ExecState}
    (h : Reaches s tr sf) : s.is_running = false → ∀ f, Label.pops f ∉ tr := by
  induction h with
  | refl s0 =>
    intro _ f hf
    exact absurd hf (List.not_mem_nil _)
  | step hst htr ih =>
    intro hrun f hf
    cases hst with
    | worker hr2 hmem hmax =>
      rw [hrun] at hr2
      exact Bool.noConfusion hr2
    | submit f2 =>
      rcases List.mem_cons.mp hf with h1 | h2
      · exact Label.noConfusion h1
      · exact ih hrun f h2

/-- One step preserves the shutdown invariant: either the flag is
already down, or a stop task of at least normal priority is still
queued. -/
theorem stop_invariant_step {s s1 : ExecState} {lbl : Label}
    (h : LStep s lbl s1) (hJ : s.is_running = false ∨ stopQueued s) :
    s1.is_running = false ∨ stopQueued s1 := by
  cases h with
  | submit f =>
    cases hJ with
    | inl h0 => exact Or.inl h0
    | inr h0 =>
      obtain ⟨x, hx, hs, hp⟩ := h0
      exact Or.inr ⟨x, List.mem_cons_of_mem f hx, hs, hp⟩
  | @worker f hrun hmem hmax =>
    cases hJ with
    | inl h0 =>
      rw [h0] at hrun
      exact Bool.noConfusion hrun
    | inr h0 =>
      obtain ⟨x, hx, hxs, hxp⟩ := h0
      by_cases hact : f.act = TaskAct.stop
      · left
        simp [hact, TaskAct.apply]
      · right
        refine ⟨x, ?_, hxs, hxp⟩
        have hne : x ≠ f := fun he => hact (he ▸ hxs)
        exact (List.mem_erase_of_ne hne).mpr hx

/-- While a stop task of at least normal priority is queued (or the
flag is already down), every task the worker ever pops has at least
normal priority. -/
theorem pops_ge_normal {s : ExecState} {tr : List Label} {sf : ExecState}
    (hr : Reaches s tr sf) (hJ : s.is_running = false ∨ stopQueued s) :
    ∀ f, Label.pops f ∈ tr → TaskPriority.normal_priority.value ≤ f.priority := by
  induction hr with
  | refl s0 =>
    intro f hf
    exact absurd hf (List.not_mem_nil _)
  | step hst htr ih =>
    intro f hf
    rcases List.mem_cons.mp hf with h1 | h2
    · cases h1
      cases hst with
      | worker hrun hmem hmax =>
        cases hJ with
        | inl h0 =>
          rw [h0] at hrun
          exact Bool.noConfusion hrun
        | inr h0 =>
          obtain ⟨x, hx, hxs, hxp⟩ := h0
          exact le_trans hxp (hmax x hx)
    · exact ih (stop_invariant_step hst hJ) f h2

/-- Claim C10: destructor shutdown.  The destructor enqueues its
shutdown task (the lambda clearing is_running_) at the default normal
priority; from any state in which that task is queued, the worker never
pops a task of priority below normal — a strictly higher-priority stop
task is queued until it is itself popped, and popping it halts the
loop — so tasks queued at low, lower or lowest priority at destruction
time are abandoned without ever executing. -/
theorem destructor_abandons_below_normal (s0 sf : ExecState) (tr : List Label)
    (i : Nat) (hsd : shutdown_task i ∈ s0.queue) (hr : Reaches s0 tr sf)
    (f : PriorityFunction)
    (hf : f.priority < TaskPriority.normal_priority.value) :
    Label.pops f ∉ tr := by
  intro hmem
  have h3 := pops_ge_normal hr
    (Or.inr ⟨shutdown_task i, hsd, rfl, Nat.le_refl _⟩) f hmem
  omega

/-- Any pop of task m that happens while a strictly higher-priority
task g sits in the queue is impossible; hence if g is queued initially
and m is popped at some point of the trace, g was popped strictly
earlier. -/
theorem pop_after_of_higher {s : ExecState} {tr : List Label} {sf : ExecState}
    (h : Reaches s tr sf) :
    ∀ (m g : PriorityFunction), g ∈ s.queue → m.priority < g.priority →
      ∀ (tr1 tr2 : List Label), tr = tr1 ++ Label.pops m :: tr2 →
        Label.pops g ∈ tr1 := by
  induction h with
  | refl s0 =>
    intro m g hg hlt tr1 tr2 heq
    cases tr1 <;> simp at heq
  | step hst htr ih =>
    intro m g hg hlt tr1 tr2 heq
    cases tr1 with
    | nil =>
      simp only [List.nil_append, List.cons.injEq] at heq
      obtain ⟨h1, h2⟩ := heq
      subst h1
      cases hst with
      | worker hrun hmem hmax =>
        have := hmax g hg
        omega
    | cons l0 tr1x =>
      simp only [List.cons_append, List.cons.injEq] at heq
      obtain ⟨h1, h2⟩ := heq
      rw [h1] at hst
      by_cases hgl : l0 = Label.pops g
      · subst hgl
        exact List.mem_cons_self _ _
      · refine List.mem_cons_of_mem l0 (ih m g ?_ hlt tr1x tr2 h2)
        cases hst with
        | @worker f hrun hmem hmax =>
          have hgf : g ≠ f := fun he => hgl (congrArg Label.pops he.symm)
          exact (List.mem_erase_of_ne hgf).mpr hg
        | submit f => exact List.mem_cons_of_mem f hg

/-- Claim C6 (amended): drain barrier.  When wait() submits its no-op
marker at lowest priority, the marker is dequeued only after every task
that was queued at the moment of submission with priority strictly
above lowest has been popped: in any execution that starts by pushing
the marker and later pops it, every strictly higher-priority initially
queued task is popped before the marker. -/
theorem wait_drain_barrier_strict (s0 sf : ExecState) (m g : PriorityFunction)
    (tr tr1 tr2 : List Label)
    (hm : m.priority = TaskPriority.lowest_priority.value)
    (hr : Reaches s0 (Label.pushes m :: tr) sf)
    (hsplit : tr = tr1 ++ Label.pops m :: tr2)
    (hg : g ∈ s0.queue) (hgp : TaskPriority.lowest_priority.value < g.priority) :
    Label.pops g ∈ tr1 := by
  cases hr with
  | step hst htr =>
    cases hst with
    | submit f =>
      refine pop_after_of_higher htr m g (List.mem_cons_of_mem m hg) ?_ tr1 tr2 hsplit
      rw [hm]
      exact hgp

/-- Claim C4: backpressure.  With the channel full, try_begin_invoke
returns the permanently invalid (uninitialized) handle without blocking
and without inserting, leaving the channel unchanged, while
begin_invoke logs the overflow event, blocks the caller and then
inserts the task; and a non-try submission never returns the
invalid-handle signal, on any channel. -/
theorem backpressure_full_channel (c : Channel) (f : PriorityFunction)
    (hfull : c.capacity ≤ c.items.length) :
    (internal_begin_invoke c true f).handleValid = false
    ∧ (internal_begin_invoke c true f).channel = c
    ∧ (internal_begin_invoke c true f).blockedCaller = false
    ∧ (internal_begin_invoke c true f).taskInserted = false
    ∧ (internal_begin_invoke c false f).loggedOverflow = true
    ∧ (internal_begin_invoke c false f).blockedCaller = true
    ∧ (internal_begin_invoke c false f).taskInserted = true
    ∧ ∀ (c2 : Channel) (f2 : PriorityFunction),
        (internal_begin_invoke c2 false f2).handleValid = true := by
  have hnot : ¬ c.items.length < c.capacity := Nat.not_lt.mpr hfull
  refine ⟨?_, ?_, ?_, ?_, ?_, ?_, ?_, ?_⟩
  · simp [internal_begin_invoke, Channel.try_push, hnot]
  · simp [internal_begin_invoke, Channel.try_push, hnot]
  · simp [internal_begin_invoke, Channel.try_push, hnot]
  · simp [internal_begin_invoke, Channel.try_push, hnot]
  · simp [internal_begin_invoke, Channel.try_push, hnot]
  · simp [internal_begin_invoke, Channel.try_push, hnot]
  · simp [internal_begin_invoke, Channel.try_push, hnot]
  · intro c2 f2
    by_cases h2 : c2.items.length < c2.capacity <;>
      simp [internal_begin_invoke, Channel.try_push, h2]

/-- Counterexample to claim C8 as stated: with the running flag already
false, invoke called on the worker thread does not raise the NotRunning
error — the is_current() fast path runs the function in place before
any check of the flag, and here returns its value 7. -/
theorem invoke_fastpath_skips_running_flag :
    invoke channel_name false true { capacity := 512, items := [] }
        { id := 0, priority := 3, act := TaskAct.pure } (fun _ => 7)
      = Except.ok (InvokeResult.inline 7) := rfl

/-- Claim C8 (amended): NotRunning is raised synchronously.  With the
running flag false at call time, try_begin_invoke and begin_invoke
raise the NotRunning invalid_operation error immediately, before any
queuing (no submission outcome is produced), and so does invoke
whenever the caller is not on the worker thread; on the worker thread
invoke instead runs the function inline without consulting the flag. -/
theorem notrunning_raised_synchronously (name : String) (c : Channel)
    (f : PriorityFunction) (func : Unit → Nat) :
    try_begin_invoke name false c f
        = Except.error { msg := some not_running_msg, source := none }
    ∧ begin_invoke name false c f
        = Except.error { msg := some not_running_msg, source := some name }
    ∧ invoke name false false c f func
        = Except.error { msg := some not_running_msg, source := some name } :=
  ⟨rfl, rfl, rfl⟩

/-- Counterexample to claim C9 as stated: the NotRunning error raised
by try_begin_invoke does not carry the executor's name — the throw at
line 122 attaches msg_info only, no source_info, so the source field of
the raised error is empty rather than the name the executor was
constructed with. -/
theorem try_begin_invoke_error_lacks_name :
    try_begin_invoke channel_name false { capacity := 512, items := [] }
        { id := 0, priority := 3, act := TaskAct.pure }
      = Except.error { msg := some not_running_msg, source := none }
    ∧ (none : Option String) ≠ some channel_name := by
  refine ⟨rfl, ?_⟩
  intro h
  exact Option.noConfusion h

/-- Claim C9 (amended): diagnostic error payloads.  The synchronously
raised errors of begin_invoke (NotRunning) and yield (InvalidOperation)
carry both a human-readable message and the executor's name; the
NotRunning error of try_begin_invoke carries the message only, with no
executor name attached. -/
theorem sync_error_diagnostics (name : String) (c : Channel)
    (f : PriorityFunction) :
    try_begin_invoke name false c f
        = Except.error { msg := some not_running_msg, source := none }
    ∧ begin_invoke name false c f
        = Except.error { msg := some not_running_msg, source := some name }
    ∧ yield name false c
        = Except.error { msg := some yield_msg, source := some name } :=
  ⟨rfl, rfl, rfl⟩

/-- Counterexample to claim C5 as stated: after stop() has returned the
running flag is false, yet an invoke issued from the worker thread
itself (is_current() true) does not fail with NotRunning — it executes
the function inline and returns its value 42. -/
theorem invoke_after_stop_on_worker_succeeds :
    invoke channel_name false true { capacity := 512, items := [] }
        { id := 1, priority := 3, act := TaskAct.pure } (fun _ => 42)
      = Except.ok (InvokeResult.inline 42) := rfl

/-- Claim C5 (amended): shutdown.  Once the running flag is false — the
state stop() leaves behind when it returns — begin_invoke and
try_begin_invoke fail synchronously with the NotRunning error, invoke
fails the same way from every thread other than the worker (on the
worker thread it runs the function inline instead), and the worker loop
never pops, hence never executes, any task still queued: no trace from
a stopped state contains a pop. -/
theorem stop_halts_submissions_and_worker (name : String) (c : Channel)
    (f : PriorityFunction) (func : Unit → Nat) (s0 sf : ExecState)
    (tr : List Label) (hstop : s0.is_running = false)
    (hr : Reaches s0 tr sf) :
    begin_invoke name false c f
        = Except.error { msg := some not_running_msg, source := some name }
    ∧ try_begin_invoke name false c f
        = Except.error { msg := some not_running_msg, source := none }
    ∧ invoke name false false c f func
        = Except.error { msg := some not_running_msg, source := some name }
    ∧ ∀ g, Label.pops g ∉ tr :=
  ⟨rfl, rfl, rfl, fun g => no_pops_when_stopped hr hstop g⟩

/-- Counterexample to claim C6 as stated: a task of lowest priority
(id 1) is already queued when the wait() marker (id 2, also lowest
priority) is submitted.  Because the priority queue guarantees nothing
among equal priorities, the execution in which the marker is popped
first is a legal behavior: the trace below pushes the marker and then
pops it while the previously queued task has not been popped.  So the
marker is not guaranteed to be dequeued only after every task already
queued at submission time has run. -/
theorem wait_marker_overtakes_equal_priority :
    Reaches { is_running := true,
              queue := [{ id := 1, priority := 0, act := TaskAct.pure }] }
        [Label.pushes { id := 2, priority := 0, act := TaskAct.pure },
          Label.pops { id := 2, priority := 0, act := TaskAct.pure }]
        { is_running := true,
          queue := [{ id := 1, priority := 0, act := TaskAct.pure }] }
    ∧ Label.pops { id := 1, priority := 0, act := TaskAct.pure }
        ∉ [Label.pushes { id := 2, priority := 0, act := TaskAct.pure }] := by
  constructor
  · refine Reaches.step (LStep.submit _)
      (Reaches.step (LStep.worker_eq rfl ?_ ?_ ?_) (Reaches.refl _))
    · decide
    · decide
    · decide
  · decide

/-- Witness for C1 at a concrete two-task queue: draining a queue
holding priorities 1 and 4 pops them in the order 4, 1. -/
theorem priority_dequeue_nonincreasing_witness :
    (poppedTasks
        [Label.pops { id := 2, priority := 4, act := TaskAct.pure },
          Label.pops { id := 1, priority := 1, act := TaskAct.pure }]).Pairwise
      (fun a b => b.priority ≤ a.priority) := by
  have h1 : LStep
      { is_running := true,
        queue := [{ id := 1, priority := 1, act := TaskAct.pure },
          { id := 2, priority := 4, act := TaskAct.pure }] }
      (Label.pops { id := 2, priority := 4, act := TaskAct.pure })
      { is_running := true,
        queue := [{ id := 1, priority := 1, act := TaskAct.pure }] } :=
    LStep.worker_eq (by decide) (by decide) (by decide) (by decide)
  have h2 : LStep
      { is_running := true,
        queue := [{ id := 1, priority := 1, act := TaskAct.pure }] }
      (Label.pops { id := 1, priority := 1, act := TaskAct.pure })
      { is_running := true, queue := [] } :=
    LStep.worker_eq (by decide) (by decide) (by decide) (by decide)
  have hr : Reaches
      { is_running := true,
        queue := [{ id := 1, priority := 1, act := TaskAct.pure },
          { id := 2, priority := 4, act := TaskAct.pure }] }
      [Label.pops { id := 2, priority := 4, act := TaskAct.pure },
        Label.pops { id := 1, priority := 1, act := TaskAct.pure }]
      { is_running := true, queue := [] } :=
    Reaches.step h1 (Reaches.step h2 (Reaches.refl _))
  exact (priority_dequeue_nonincreasing _ _ _ hr (by intro f hf; simp at hf)).1

/-- Witness for C4 at a concrete full channel (capacity 0): the try
submission comes back with the invalid handle. -/
theorem backpressure_full_channel_witness :
    (internal_begin_invoke { capacity := 0, items := [] } true
        { id := 0, priority := 3, act := TaskAct.pure }).handleValid = false :=
  (backpressure_full_channel { capacity := 0, items := [] }
    { id := 0, priority := 3, act := TaskAct.pure } (Nat.le_refl 0)).1

/-- Witness for C5 at a concrete stopped state: a task queued when the
flag is down is never popped, here along a trace consisting of one
racing push. -/
theorem stop_halts_submissions_and_worker_witness :
    Label.pops { id := 3, priority := 1, act := TaskAct.pure }
      ∉ [Label.pushes { id := 9, priority := 5, act := TaskAct.pure }] := by
  have hr : Reaches
      { is_running := false,
        queue := [{ id := 3, priority := 1, act := TaskAct.pure }] }
      [Label.pushes { id := 9, priority := 5, act := TaskAct.pure }]
      { is_running := false,
        queue := [{ id := 9, priority := 5, act := TaskAct.pure },
          { id := 3, priority := 1, act := TaskAct.pure }] } :=
    Reaches.step (LStep.submit _) (Reaches.refl _)
  exact (stop_halts_submissions_and_worker channel_name
    { capacity := 1, items := [] } { id := 3, priority := 1, act := TaskAct.pure }
    (fun _ => 0) _ _ _ rfl hr).2.2.2 _

/-- Witness for the amended C6 at a concrete queue: a normal-priority
task queued before the lowest-priority marker is popped strictly before
the marker. -/
theorem wait_drain_barrier_strict_witness :
    Label.pops { id := 1, priority := 3, act := TaskAct.pure }
      ∈ [Label.pops { id := 1, priority := 3, act := TaskAct.pure }] := by
  have h1 : LStep
      { is_running := true,
        queue := [{ id := 1, priority := 3, act := TaskAct.pure }] }
      (Label.pushes { id := 2, priority := 0, act := TaskAct.pure })
      { is_running := true,
        queue := [{ id := 2, priority := 0, act := TaskAct.pure },
          { id := 1, priority := 3, act := TaskAct.pure }] } :=
    LStep.submit _
  have h2 : LStep
      { is_running := true,
        queue := [{ id := 2, priority := 0, act := TaskAct.pure },
          { id := 1, priority := 3, act := TaskAct.pure }] }
      (Label.pops { id := 1, priority := 3, act := TaskAct.pure })
      { is_running := true,
        queue := [{ id := 2, priority := 0, act := TaskAct.pure }] } :=
    LStep.worker_eq (by decide) (by decide) (by decide) (by decide)
  have h3 : LStep
      { is_running := true,
        queue := [{ id := 2, priority := 0, act := TaskAct.pure }] }
      (Label.pops { id := 2, priority := 0, act := TaskAct.pure })
      { is_running := true, queue := [] } :=
    LStep.worker_eq (by decide) (by decide) (by decide) (by decide)
  have hr : Reaches
      { is_running := true,
        queue := [{ id := 1, priority := 3, act := TaskAct.pure }] }
      [Label.pushes { id := 2, priority := 0, act := TaskAct.pure },
        Label.pops { id := 1, priority := 3, act := TaskAct.pure },
        Label.pops { id := 2, priority := 0, act := TaskAct.pure }]
      { is_running := true, queue := [] } :=
    Reaches.step h1 (Reaches.step h2 (Reaches.step h3 (Reaches.refl _)))
  exact wait_drain_barrier_strict
    { is_running := true,
      queue := [{ id := 1, priority := 3, act := TaskAct.pure }] }
    { is_running := true, queue := [] }
    { id := 2, priority := 0, act := TaskAct.pure }
    { id := 1, priority := 3, act := TaskAct.pure }
    [Label.pops { id := 1, priority := 3, act := TaskAct.pure },
      Label.pops { id := 2, priority := 0, act := TaskAct.pure }]
    [Label.pops { id := 1, priority := 3, act := TaskAct.pure }] [] rfl hr rfl
    (by decide) (by decide)

/-- Witness for C10 at a concrete destroyed executor: with the shutdown
task and one low-priority task queued, the trace that pops the shutdown
task never pops the low-priority task. -/
theorem destructor_abandons_below_normal_witness :
    Label.pops { id := 1, priority := 2, act := TaskAct.pure }
      ∉ [Label.pops (shutdown_task 0)] := by
  have hr : Reaches
      { is_running := true,
        queue := [shutdown_task 0,
          { id := 1, priority := 2, act := TaskAct.pure }] }
      [Label.pops (shutdown_task 0)]
      { is_running := false,
        queue := [{ id := 1, priority := 2, act := TaskAct.pure }] } := by
    refine Reaches.step (LStep.worker_eq ?_ ?_ ?_ ?_) (Reaches.refl _)
    · decide
    · decide
    · decide
    · decide
  exact destructor_abandons_below_normal _ _ _ 0 (by decide) hr
    { id := 1, priority := 2, act := TaskAct.pure } (by decide)

end Caspar
